import Mathlib

/-!
Verification of the Zero-Azimuth orchestrator backend against its
natural-language specification.  The Python sources are shallowly embedded:
pure functions become Lean functions, randomness (the secrets module) is
passed in as explicit parameters, machine bytes are Nat values, and code
paths that raise become Option/Except results.  Rationals stand in for the
Python floats; every threshold comparison in the sources involves rationals
with denominators small enough (at most 100 against 11/100) that the float
and rational comparisons agree exactly.
-/

namespace ZeroAzimuth

/-! ## Quantum engine (src/quantum_engine.py) -/

/-- Protocol metadata returned by simulate_qkd_protocol
(src/quantum_engine.py lines 115-124). -/
structure QKDMetadata where
  session_id : String
  num_qubits : Nat
  matching_bases : Nat
  sifted_key_length : Nat
  final_key_length : Nat
  qber : ℚ
  security_check : String
  eavesdropping_detected : Bool
deriving DecidableEq

/-- One byte of _bits_to_bytes: OR of bits shifted to most-significant-first
positions (src/quantum_engine.py lines 132-135). -/
def byte_of_bits (chunk : List Nat) : Nat :=
  chunk.enum.foldl (fun b p => b ||| (p.2 <<< (7 - p.1))) 0

/-- _bits_to_bytes: pack a bit list eight bits per byte, most-significant
bit first (src/quantum_engine.py lines 128-136). -/
def bits_to_bytes (bits : List Nat) : List Nat :=
  if h : bits = [] then []
  else byte_of_bits (bits.take 8) :: bits_to_bytes (bits.drop 8)
termination_by bits.length
decreasing_by
  simp only [List.length_drop]
  have hb : bits.length ≠ 0 := fun hh => h (List.length_eq_zero.mp hh)
  omega

/-- simulate_qkd_protocol (src/quantum_engine.py lines 71-126).  The random
draws of the secrets module are parameters: alice_bases, alice_bits and
bob_bases are the per-qubit random choices, sample models
secrets.sample(range(n), k) as a function of n and k, and flip models the
per-test-bit error coin secrets.choice([0, 1]).  Returns the final key bytes
together with the protocol metadata. -/
def simulate_qkd_protocol (session_id : String) (num_qubits : Nat)
    (alice_bases : List Char) (alice_bits : List Nat) (bob_bases : List Char)
    (sample : Nat → Nat → List Nat) (flip : Nat → Nat) :
    List Nat × QKDMetadata :=
  let matching_bases :=
    ((alice_bases.zip bob_bases).enum.filter (fun p => p.2.1 == p.2.2)).map Prod.fst
  let sifted_key_bits := matching_bases.map (fun i => alice_bits.getD i 0)
  let test_indices := sample sifted_key_bits.length (min 100 (sifted_key_bits.length / 10))
  let test_bits := test_indices.map (fun i => sifted_key_bits.getD i 0)
  let error_bits := ((List.range test_bits.length).map flip).sum
  let qber : ℚ := if test_bits.isEmpty then 0 else (error_bits : ℚ) / (test_bits.length : ℚ)
  let final_key_bits :=
    (sifted_key_bits.enum.filter (fun p => !(test_indices.contains p.1))).map Prod.snd
  let key_bytes := bits_to_bytes (final_key_bits.take 256)
  (key_bytes,
   { session_id := session_id
     num_qubits := num_qubits
     matching_bases := matching_bases.length
     sifted_key_length := sifted_key_bits.length
     final_key_length := final_key_bits.length
     qber := qber
     security_check := if qber < mkRat 11 100 then "PASSED" else "FAILED"
     eavesdropping_detected := decide (qber > mkRat 11 100) })

/-- The metadata component of simulate_qkd_protocol. -/
def qkd_metadata (session_id : String) (num_qubits : Nat)
    (alice_bases : List Char) (alice_bits : List Nat) (bob_bases : List Char)
    (sample : Nat → Nat → List Nat) (flip : Nat → Nat) : QKDMetadata :=
  (simulate_qkd_protocol session_id num_qubits alice_bases alice_bits bob_bases
    sample flip).2

/-- The dictionary held in QuantumEngine.active_sessions for one session,
as written by create_quantum_session (src/quantum_engine.py lines 199-209);
only the fields read by get_session_key are kept. -/
structure QSession where
  session_id : String
  algorithm : String
  quantum_key_id : String
  quantum_key_checksum : String
  qber : Option ℚ
  is_active : Bool
deriving DecidableEq

/-- The QuantumKey value get_session_key builds (the fields its callers
read: key id, material, checksum, qber). -/
structure QuantumKeyView where
  key_id : String
  key_material : List Nat
  checksum : String
  qber : Option ℚ
deriving DecidableEq

/-- get_session_key (src/quantum_engine.py lines 214-233).  The sessions
table is the in-process active_sessions dictionary.  fresh_material is the
draw of secrets.token_bytes(32) the code makes on line 222: the code never
reconstructs the stored key material, it puts fresh random bytes in the
returned key. -/
def get_session_key (sessions : List (String × QSession)) (session_id : String)
    (fresh_material : List Nat) : Option QuantumKeyView :=
  match sessions.lookup session_id with
  | none => none
  | some s =>
      some { key_id := s.quantum_key_id
             key_material := fresh_material
             checksum := s.quantum_key_checksum
             qber := s.qber }

/-- _symmetric_encrypt (src/quantum_engine.py lines 267-271): repeat the key
to at least the plaintext length, truncate, XOR byte by byte. -/
def symmetric_encrypt (key plaintext : List Nat) : List Nat :=
  let key_expanded :=
    (List.flatten (List.replicate (plaintext.length / key.length + 1) key)).take
      plaintext.length
  List.zipWith (fun a b => a ^^^ b) plaintext key_expanded

/-- The dictionary quantum_encrypt returns (src/quantum_engine.py lines
245-251); the algorithm and timestamp fields are dropped as nothing under
verification reads them. -/
structure EncryptedPayload where
  ciphertext : List Nat
  key_id : String
  qber : Option ℚ
deriving DecidableEq

/-- quantum_encrypt (src/quantum_engine.py lines 235-251).  A none result
models the ValueError raised when the session has no key.  fresh_material
is the secrets.token_bytes(32) draw made inside get_session_key on this
call. -/
def quantum_encrypt (sessions : List (String × QSession)) (session_id : String)
    (fresh_material plaintext : List Nat) : Option EncryptedPayload :=
  match get_session_key sessions session_id fresh_material with
  | none => none
  | some qk =>
      some { ciphertext := symmetric_encrypt qk.key_material plaintext
             key_id := qk.key_id
             qber := qk.qber }

/-- quantum_decrypt (src/quantum_engine.py lines 253-265).  A none result
models the raised ValueError (missing key, key id mismatch, or QBER above
0.11).  The Python guard is `if quantum_key.qber and quantum_key.qber >
0.11`: a missing qber, and the falsy value 0, skip the check, which is the
same predicate as qber > 11/100.  fresh_material is the
secrets.token_bytes(32) draw made inside get_session_key on this call. -/
def quantum_decrypt (sessions : List (String × QSession)) (session_id : String)
    (fresh_material : List Nat) (encrypted_data : EncryptedPayload) :
    Option (List Nat) :=
  match get_session_key sessions session_id fresh_material with
  | none => none
  | some qk =>
      if qk.key_id ≠ encrypted_data.key_id then none
      else if (match qk.qber with
               | some q => decide (q > mkRat 11 100)
               | none => false) then none
      else some (symmetric_encrypt qk.key_material encrypted_data.ciphertext)

/-- An active-sessions table with one session, whose stored QBER is 0.05
(inside the simulated 1-8 percent range). -/
def demoSessions : List (String × QSession) :=
  [("s1", { session_id := "s1", algorithm := "kyber768",
            quantum_key_id := "qk1", quantum_key_checksum := "cs",
            qber := some (mkRat 1 20), is_active := true })]

/-- The 32-byte draw of secrets.token_bytes made inside the encrypting
call of get_session_key: all zero bytes. -/
def demoKeyA : List Nat := List.replicate 32 0

/-- The 32-byte draw made inside the decrypting call of get_session_key:
all 255 bytes. -/
def demoKeyB : List Nat := List.replicate 32 255

/-- The payload quantum_encrypt returns for plaintext [1] under the
demoKeyA draw. -/
def demoPayload : EncryptedPayload :=
  { ciphertext := [1], key_id := "qk1", qber := some (mkRat 1 20) }

/-! ## Security manager (src/security.py) -/

/-- JWT settings (src/security.py line 26): token lifetime in minutes. -/
def ACCESS_TOKEN_EXPIRE_MINUTES : Int := 60 * 24 * 7

/-- User roles (src/models/user.py is not under src; the role strings are
fixed by src/security.py lines 115-120). -/
inductive UserRole where
  | admin
  | researcher
  | operator
  | viewer
deriving DecidableEq

/-- The .value string of a role. -/
def UserRole.value : UserRole → String
  | .admin => "admin"
  | .researcher => "researcher"
  | .operator => "operator"
  | .viewer => "viewer"

/-- The claims carried by an access token (src/security.py lines 48-53).
Times are integral seconds. -/
structure JWTClaims where
  sub : String
  role : String
  exp : Int
  iat : Int
deriving DecidableEq

/-- Model of a token produced by the external jwt library: either a payload
signed with a key, or a string that is not a token at all. -/
inductive JWTToken where
  | signed (claims : JWTClaims) (key : String)
  | malformed (raw : String)
deriving DecidableEq

/-- Model of jwt.decode from the documented interface of the external jwt
library: a malformed token, a signature made with the wrong key, and an
expired payload (exp at or before the current time) each raise, here an
error value; otherwise the payload is returned. -/
def jwt_decode (token : JWTToken) (key : String) (now : Int) :
    Except String JWTClaims :=
  match token with
  | .malformed _ => .error "DecodeError"
  | .signed c k =>
      if k ≠ key then .error "InvalidSignatureError"
      else if c.exp ≤ now then .error "ExpiredSignatureError"
      else .ok c

/-- create_access_token (src/security.py lines 46-54): sub, role.value,
exp = now + ACCESS_TOKEN_EXPIRE_MINUTES (a timedelta of minutes, 604800
seconds), iat = now, signed with the process secret. -/
def create_access_token (secret : String) (user_id : String) (role : UserRole)
    (now : Int) : JWTToken :=
  .signed { sub := user_id
            role := role.value
            exp := now + ACCESS_TOKEN_EXPIRE_MINUTES * 60
            iat := now } secret

/-- verify_token (src/security.py lines 56-62): decode, returning none on
any decode error instead of raising. -/
def verify_token (secret : String) (token : JWTToken) (now : Int) :
    Option JWTClaims :=
  match jwt_decode token secret now with
  | .ok payload => some payload
  | .error _ => none

/-- apply_blinding (src/security.py lines 101-110).  noise is the draw of
generate_noise_data(len(real_data) * noise_ratio) and insert_pos the draw of
secrets.randbelow(len(noise) - len(real_data)); both randoms are passed in.
The result is noise[:insert_pos] + real_data + noise[insert_pos:]. -/
def apply_blinding (real_data : List Nat) (noise : List Nat)
    (insert_pos : Nat) : List Nat :=
  noise.take insert_pos ++ real_data ++ noise.drop insert_pos

/-! ## Cache/session client (src/redis_client.py) -/

/-- The slice of the Redis store that check_rate_limit touches: integer
counters (INCR treats a missing key as 0) and per-key expiries. -/
structure RedisState where
  counters : String → Nat
  expiry : String → Option Nat

/-- redis INCR on a key: the incremented value and the new store. -/
def redis_incr (st : RedisState) (key : String) : Nat × RedisState :=
  let current := st.counters key + 1
  (current,
   { st with counters := fun k => if k == key then current else st.counters k })

/-- redis EXPIRE on a key. -/
def redis_expire (st : RedisState) (key : String) (window : Nat) : RedisState :=
  { st with expiry := fun k => if k == key then some window else st.expiry k }

/-- check_rate_limit (src/redis_client.py lines 161-174): increment the
counter for the key, set the expiry to window only when the post-increment
counter equals 1, and allow iff the post-increment counter is at most the
limit. -/
def check_rate_limit (st : RedisState) (key : String) (limit : Nat)
    (window : Nat) : Bool × RedisState :=
  let (current, st1) := redis_incr st key
  let st2 := if current == 1 then redis_expire st1 key window else st1
  (decide (current ≤ limit), st2)

/-- A store with no keys: every counter reads 0, no expiry is set. -/
def freshRedis : RedisState :=
  { counters := fun _ => 0, expiry := fun _ => none }

/-- First call of the limit-3 scenario on a fresh key. -/
def rl_call1 : Bool × RedisState := check_rate_limit freshRedis "k" 3 60

/-- Second call of the limit-3 scenario. -/
def rl_call2 : Bool × RedisState := check_rate_limit rl_call1.2 "k" 3 60

/-- Third call of the limit-3 scenario. -/
def rl_call3 : Bool × RedisState := check_rate_limit rl_call2.2 "k" 3 60

/-- Fourth call of the limit-3 scenario. -/
def rl_call4 : Bool × RedisState := check_rate_limit rl_call3.2 "k" 3 60

/-! ## Messaging client (src/nats_client.py) -/

/-- The outcome of awaiting kv.get(key) on a NATS KeyValue handle, followed
by decoding the entry: a decoded entry, or one of the ways the call raises
(key missing, bucket gone on the server, any other error, a payload that
json.loads rejects). -/
inductive KVFetch where
  | entry (value : String)
  | keyNotFound
  | bucketNotFound
  | otherError
deriving DecidableEq

/-- A server-side KeyValue bucket handle as kv_get uses it. -/
structure KVStore where
  get : String → KVFetch

/-- What a call of kv_get does, seen from the caller: a value, an absent
result (None), or a raised error. -/
inductive KVGetResult where
  | value (v : String)
  | absent
  | raised
deriving DecidableEq

/-- kv_get (src/nats_client.py lines 120-131): a bucket name missing from
self.kv_stores raises ValueError before the try block; inside the try block
every failure of the get (BucketNotFoundError and any other exception,
including a missing key and a bad payload) is swallowed into None. -/
def kv_get (kv_stores : List (String × KVStore)) (bucket key : String) :
    KVGetResult :=
  match kv_stores.lookup bucket with
  | none => .raised
  | some store =>
      match store.get key with
      | .entry v => .value v
      | .keyNotFound => .absent
      | .bucketNotFound => .absent
      | .otherError => .absent

/-- A bucket handle whose every get raises KeyNotFoundError. -/
def kvEmptyStore : KVStore := { get := fun _ => .keyNotFound }

/-- A bucket handle whose every get raises BucketNotFoundError (the bucket
was deleted on the server after the handle was taken). -/
def kvGoneStore : KVStore := { get := fun _ => .bucketNotFound }

/-! ## Authentication API (src/auth.py) -/

/-- The User model fields the auth endpoints read (src/models/user.py is not
under src; the fields are fixed by their uses in src/auth.py). -/
structure AuthUser where
  id : String
  username : String
  email : String
  password_hash : String
  full_name : String
  role : UserRole
  is_active : Bool
  is_verified : Bool
deriving DecidableEq

/-- The LoginResponse projection (src/auth.py lines 113-125), restricted to
the fields under verification. -/
structure LoginResponse where
  access_token : JWTToken
  user_id : String
  user_is_active : Bool
deriving DecidableEq

/-- login (src/auth.py lines 82-125).  vp is the bcrypt verify_password
check (src/security.py lines 41-43), passed in as a function; users is the
database table, searched by username or email; now is the clock read when
the token is issued.  Both failure paths raise HTTP 401. -/
def login (vp : String → String → Bool) (secret : String)
    (users : List AuthUser) (username password : String) (now : Int) :
    Except Nat LoginResponse :=
  match users.find? (fun u => u.username == username || u.email == username) with
  | none => .error 401
  | some user =>
      if vp password user.password_hash then
        .ok { access_token := create_access_token secret user.id user.role now
              user_id := user.id
              user_is_active := user.is_active }
      else .error 401

/-- get_current_user (src/auth.py lines 55-79): verify the bearer token,
load the user by the sub claim, fail 401 when the token is invalid or the
user is missing or inactive. -/
def get_current_user (secret : String) (users : List AuthUser)
    (token : JWTToken) (now : Int) : Except Nat AuthUser :=
  match verify_token secret token now with
  | none => .error 401
  | some payload =>
      match users.find? (fun u => u.id == payload.sub) with
      | none => .error 401
      | some user =>
          if !user.is_active then .error 401 else .ok user

/-- An inactive user whose stored hash the demo password check accepts. -/
def demoInactiveUser : AuthUser :=
  { id := "u1", username := "alice", email := "alice@example.com",
    password_hash := "hash1", full_name := "Alice A",
    role := UserRole.viewer, is_active := false, is_verified := true }

/-- A one-user database table. -/
def demoUsers : List AuthUser := [demoInactiveUser]

/-- A stand-in for the bcrypt verify_password check: accept when the
submitted password equals the stored hash. -/
def demoVP : String → String → Bool := fun p h => p == h

/-! ## Scans API (src/scans.py, src/models/scan.py) -/

/-- ScanType (src/scan.py lines 17-25). -/
inductive ScanType where
  | port
  | vulnerability
  | web
  | network
  | service
  | ssl
  | dns
deriving DecidableEq

/-- ScanStatus (src/scan.py lines 28-34). -/
inductive ScanStatus where
  | pending
  | running
  | completed
  | failed
  | cancelled
deriving DecidableEq

/-- The Scan row (src/scan.py lines 46-104), restricted to the scalar
columns; the JSONB config column is carried as an opaque optional string. -/
structure Scan where
  id : String
  user_id : String
  name : String
  scan_type : ScanType
  status : ScanStatus
  targets : List String
  ports : Option (List String)
  config : Option String
  started_at : Option Int
  completed_at : Option Int
  total_hosts : Nat
  total_services : Nat
  vulnerabilities_found : Nat
deriving DecidableEq

/-- The HTTP outcome of the cancel endpoint. -/
inductive HTTPOutcome where
  | success
  | badRequest
  | notFound
deriving DecidableEq

/-- cancel_scan (src/scans.py lines 337-366), applied to the result of the
ownership-scoped lookup (none when no scan with the id is owned by the
caller): 404 when absent, 400 when the status is not pending or running
(the row is left as it is), otherwise only the status field is set to
cancelled and the row committed. -/
def cancel_scan (found : Option Scan) : HTTPOutcome × Option Scan :=
  match found with
  | none => (.notFound, none)
  | some scan =>
      if scan.status ∉ [ScanStatus.pending, ScanStatus.running] then
        (.badRequest, some scan)
      else
        (.success, some { scan with status := ScanStatus.cancelled })

/-- A pending scan used to instantiate the cancel theorems. -/
def demoScanPending : Scan :=
  { id := "scan-1", user_id := "user-1", name := "sweep",
    scan_type := ScanType.port, status := ScanStatus.pending,
    targets := ["10.0.0.7"], ports := none, config := none,
    started_at := none, completed_at := none,
    total_hosts := 0, total_services := 0, vulnerabilities_found := 0 }

/-- A completed scan used to instantiate the cancel theorems. -/
def demoScanCompleted : Scan :=
  { demoScanPending with
    id := "scan-2"
    status := ScanStatus.completed
    started_at := some 100
    completed_at := some 160
    total_hosts := 1
    total_services := 2 }

/-- A running scan with no completion timestamp, used to instantiate the
frame theorem. -/
def demoScanRunning : Scan :=
  { demoScanPending with
    id := "scan-3"
    status := ScanStatus.running
    started_at := some 100
    ports := some ["80", "443"]
    config := some "cfg" }

/-! ## Nmap XML parsing (src/scans.py lines 606-650) -/

/-- An XML element as ElementTree presents it: tag, attributes, children. -/
inductive XMLElem where
  | mk (tag : String) (attrs : List (String × String)) (children : List XMLElem)

/-- The tag of an element. -/
def XMLElem.tag : XMLElem → String
  | .mk t _ _ => t

/-- The attributes of an element. -/
def XMLElem.attrs : XMLElem → List (String × String)
  | .mk _ a _ => a

/-- The children of an element. -/
def XMLElem.children : XMLElem → List XMLElem
  | .mk _ _ c => c

/-- ElementTree findall with a plain tag: the direct children carrying the
tag, in document order. -/
def findall (e : XMLElem) (tag : String) : List XMLElem :=
  e.children.filter (fun c => c.tag == tag)

/-- ElementTree find with a plain tag: the first direct child carrying the
tag. -/
def find_child (e : XMLElem) (tag : String) : Option XMLElem :=
  e.children.find? (fun c => c.tag == tag)

/-- Element.get(name, default): the attribute value or the default. -/
def attr_get (e : XMLElem) (name default : String) : String :=
  (e.attrs.lookup name).getD default

/-- ElementTree findall with the two-step path tag1/tag2: the tag2 children
of every tag1 child, in document order. -/
def findall_path (e : XMLElem) (tag1 tag2 : String) : List XMLElem :=
  (findall e tag1).flatMap (fun p => findall p tag2)

/-- Python int() applied to an attribute string, modelled over the
character list: a non-empty all-digit string converts, anything else
raises (none). -/
def str_to_nat? (s : String) : Option Nat :=
  if s.data.isEmpty then none
  else if s.data.all Char.isDigit then
    some (s.data.foldl (fun n c => 10 * n + (c.toNat - 48)) 0)
  else none

/-- One parsed port entry (src/scans.py lines 626-632). -/
structure PortData where
  port : Nat
  protocol : String
  state : String
  service : String
  version : String
deriving DecidableEq

/-- The per-port body of the host loop (src/scans.py lines 625-641): build
the port record; int(port.get("portid", 0)) raises on a non-numeric portid
attribute, modelled as none, which aborts the whole parse. -/
def parse_port (port : XMLElem) : Option PortData :=
  let portid : Option Nat :=
    match port.attrs.lookup "portid" with
    | none => some 0
    | some s => str_to_nat? s
  match portid with
  | none => none
  | some pid =>
      let st :=
        match find_child port "state" with
        | some s => attr_get s "state" ""
        | none => ""
      let sv :=
        match find_child port "service" with
        | some s => attr_get s "name" ""
        | none => ""
      let ver :=
        match find_child port "service" with
        | some s => attr_get s "version" ""
        | none => ""
      some { port := pid, protocol := attr_get port "protocol" "",
             state := st, service := sv, version := ver }

/-- The ports loop with exception propagation: every port must parse, in
order, or the enclosing try aborts. -/
def parse_ports : List XMLElem → Option (List PortData)
  | [] => some []
  | p :: ps =>
      match parse_port p, parse_ports ps with
      | some pd, some pds => some (pd :: pds)
      | _, _ => none

/-- The host_data dictionary (src/scans.py lines 613-618). -/
structure HostData where
  address : String
  hostname : String
  ports : List PortData
  os : String
deriving DecidableEq

/-- The body of the host loop (src/scans.py lines 620-644): overwrite the
address from the first address child when there is one, then append every
port whose state attribute is "open". -/
def parse_host (hd : HostData) (host : XMLElem) : Option HostData :=
  let hd1 :=
    match find_child host "address" with
    | some a => { hd with address := attr_get a "addr" "" }
    | none => hd
  match parse_ports (findall_path host "ports" "port") with
  | none => none
  | some pds =>
      some { hd1 with ports := hd1.ports ++ pds.filter (fun p => p.state == "open") }

/-- The host loop, threading host_data through every host element. -/
def parse_hosts : HostData → List XMLElem → Option HostData
  | hd, [] => some hd
  | hd, h :: hs =>
      match parse_host hd h with
      | none => none
      | some hd1 => parse_hosts hd1 hs

/-- parse_nmap_xml (src/scans.py lines 606-650): fold the host loop over
root.findall("host") starting from the empty host_data; none models the
error dictionary returned when parsing raises. -/
def parse_nmap_xml (root : XMLElem) : Option HostData :=
  parse_hosts { address := "", hostname := "", ports := [], os := "" }
    (findall root "host")

/-- The open ports one host element contributes: its ports/port children
that parse, filtered to state "open".  Used to state what the parser
returns. -/
def open_ports_of (host : XMLElem) : List PortData :=
  ((findall_path host "ports" "port").filterMap parse_port).filter
    (fun p => p.state == "open")

/-- The address one host element carries: the addr attribute of its first
address child, when it has one. -/
def address_of (host : XMLElem) : Option String :=
  (find_child host "address").map (fun a => attr_get a "addr" "")

/-- A minimal single-host nmap document: one host at 192.168.0.5 with an
open ssh port 22 and a closed http port 80. -/
def nmapOneHost : XMLElem :=
  .mk "nmaprun" []
    [.mk "host" []
      [.mk "address" [("addr", "192.168.0.5")] [],
       .mk "ports" []
         [.mk "port" [("portid", "22"), ("protocol", "tcp")]
            [.mk "state" [("state", "open")] [],
             .mk "service" [("name", "ssh"), ("version", "8.9p1")] []],
          .mk "port" [("portid", "80"), ("protocol", "tcp")]
            [.mk "state" [("state", "closed")] [],
             .mk "service" [("name", "http"), ("version", "2.4")] []]]]]

/-- The host_data parse_nmap_xml computes for nmapOneHost. -/
def nmapOneHostParsed : HostData :=
  { address := "192.168.0.5", hostname := "", os := "",
    ports := [{ port := 22, protocol := "tcp", state := "open",
                service := "ssh", version := "8.9p1" }] }

/-- The first host of the two-host counterexample document: 10.0.0.1 with
an open ssh port. -/
def nmapHostA : XMLElem :=
  .mk "host" []
    [.mk "address" [("addr", "10.0.0.1")] [],
     .mk "ports" []
       [.mk "port" [("portid", "22"), ("protocol", "tcp")]
          [.mk "state" [("state", "open")] [],
           .mk "service" [("name", "ssh")] []]]]

/-- The second host of the two-host counterexample document: 10.0.0.2 with
an open http port. -/
def nmapHostB : XMLElem :=
  .mk "host" []
    [.mk "address" [("addr", "10.0.0.2")] [],
     .mk "ports" []
       [.mk "port" [("portid", "80"), ("protocol", "tcp")]
          [.mk "state" [("state", "open")] [],
           .mk "service" [("name", "http")] []]]]

/-- A well-formed nmap document with two hosts. -/
def nmapTwoHosts : XMLElem := .mk "nmaprun" [] [nmapHostA, nmapHostB]

/-! ## Theorems -/

/-- C5: check_rate_limit increments the counter of the key, sets the expiry
of the key to the window only when the post-increment counter equals 1, and
allows the request iff the post-increment counter is at most the limit; on a
fresh key with limit 3 and window 60 the first three calls allow and the
fourth refuses. -/
theorem check_rate_limit_spec (st : RedisState) (key : String)
    (limit window : Nat) :
    ((check_rate_limit st key limit window).2.counters key
        = st.counters key + 1) ∧
    ((check_rate_limit st key limit window).2.expiry key
        = if st.counters key + 1 = 1 then some window else st.expiry key) ∧
    (((check_rate_limit st key limit window).1 = true)
        ↔ st.counters key + 1 ≤ limit) ∧
    (rl_call1.1 = true ∧ rl_call2.1 = true ∧ rl_call3.1 = true ∧
        rl_call4.1 = false) := by
  refine ⟨?_, ?_, ?_, by decide⟩
  · simp only [check_rate_limit, redis_incr, redis_expire]
    split <;> simp
  · simp only [check_rate_limit, redis_incr, redis_expire]
    split <;> rename_i hsplit <;> simp_all
  · simp [check_rate_limit, redis_incr]

/-- C6: for a scan the caller owns, the cancel endpoint sets the status to
cancelled exactly when the current status is pending or running, and fails
with Bad Request leaving the row unchanged for each of the three other
statuses. -/
theorem cancel_scan_status_gate (s : Scan) :
    ((s.status = ScanStatus.pending ∨ s.status = ScanStatus.running) →
        cancel_scan (some s)
          = (HTTPOutcome.success, some { s with status := ScanStatus.cancelled })) ∧
    ((s.status = ScanStatus.completed ∨ s.status = ScanStatus.failed ∨
        s.status = ScanStatus.cancelled) →
        cancel_scan (some s) = (HTTPOutcome.badRequest, some s)) := by
  constructor
  · rintro (h | h) <;> simp [cancel_scan, h]
  · rintro (h | h | h) <;> simp [cancel_scan, h]

/-- C10: a successful cancel changes only the status field: name, type,
targets, ports, config, the timestamps and the three counters are those of
the row before the call, and in particular no completion timestamp is
acquired. -/
theorem cancel_scan_frame (s : Scan)
    (h : s.status = ScanStatus.pending ∨ s.status = ScanStatus.running) :
    ((cancel_scan (some s)).1 = HTTPOutcome.success) ∧
    ((cancel_scan (some s)).2.map Scan.status = some ScanStatus.cancelled) ∧
    ((cancel_scan (some s)).2.map Scan.id = some s.id) ∧
    ((cancel_scan (some s)).2.map Scan.user_id = some s.user_id) ∧
    ((cancel_scan (some s)).2.map Scan.name = some s.name) ∧
    ((cancel_scan (some s)).2.map Scan.scan_type = some s.scan_type) ∧
    ((cancel_scan (some s)).2.map Scan.targets = some s.targets) ∧
    ((cancel_scan (some s)).2.map Scan.ports = some s.ports) ∧
    ((cancel_scan (some s)).2.map Scan.config = some s.config) ∧
    ((cancel_scan (some s)).2.map Scan.started_at = some s.started_at) ∧
    ((cancel_scan (some s)).2.map Scan.completed_at = some s.completed_at) ∧
    ((cancel_scan (some s)).2.map Scan.total_hosts = some s.total_hosts) ∧
    ((cancel_scan (some s)).2.map Scan.total_services = some s.total_services) ∧
    ((cancel_scan (some s)).2.map Scan.vulnerabilities_found
        = some s.vulnerabilities_found) := by
  rcases h with h | h <;> simp [cancel_scan, h]

/-- Witness for C10: the running demo scan, whose completed_at is none, is
cancelled with every field but the status preserved. -/
theorem cancel_scan_frame_witness :
    demoScanRunning.completed_at = none ∧
    (((cancel_scan (some demoScanRunning)).1 = HTTPOutcome.success) ∧
    ((cancel_scan (some demoScanRunning)).2.map Scan.status
        = some ScanStatus.cancelled) ∧
    ((cancel_scan (some demoScanRunning)).2.map Scan.id
        = some demoScanRunning.id) ∧
    ((cancel_scan (some demoScanRunning)).2.map Scan.user_id
        = some demoScanRunning.user_id) ∧
    ((cancel_scan (some demoScanRunning)).2.map Scan.name
        = some demoScanRunning.name) ∧
    ((cancel_scan (some demoScanRunning)).2.map Scan.scan_type
        = some demoScanRunning.scan_type) ∧
    ((cancel_scan (some demoScanRunning)).2.map Scan.targets
        = some demoScanRunning.targets) ∧
    ((cancel_scan (some demoScanRunning)).2.map Scan.ports
        = some demoScanRunning.ports) ∧
    ((cancel_scan (some demoScanRunning)).2.map Scan.config
        = some demoScanRunning.config) ∧
    ((cancel_scan (some demoScanRunning)).2.map Scan.started_at
        = some demoScanRunning.started_at) ∧
    ((cancel_scan (some demoScanRunning)).2.map Scan.completed_at
        = some demoScanRunning.completed_at) ∧
    ((cancel_scan (some demoScanRunning)).2.map Scan.total_hosts
        = some demoScanRunning.total_hosts) ∧
    ((cancel_scan (some demoScanRunning)).2.map Scan.total_services
        = some demoScanRunning.total_services) ∧
    ((cancel_scan (some demoScanRunning)).2.map Scan.vulnerabilities_found
        = some demoScanRunning.vulnerabilities_found)) :=
  ⟨rfl, cancel_scan_frame demoScanRunning (Or.inr rfl)⟩

/-- C4: a token created for a user id and role and verified at once yields
claims whose sub is that user id and whose role string is that role; a
malformed token, and a signed token whose expiry is at or before the
current time, verify to none instead of raising. -/
theorem token_roundtrip_and_rejection (secret user_id : String)
    (role : UserRole) (now : Int) :
    ((verify_token secret (create_access_token secret user_id role now) now).map
        JWTClaims.sub = some user_id) ∧
    ((verify_token secret (create_access_token secret user_id role now) now).map
        JWTClaims.role = some role.value) ∧
    (∀ raw, verify_token secret (JWTToken.malformed raw) now = none) ∧
    (∀ c key, c.exp ≤ now →
        verify_token secret (JWTToken.signed c key) now = none) := by
  have hexp : ¬ (now + ACCESS_TOKEN_EXPIRE_MINUTES * 60 ≤ now) := by
    unfold ACCESS_TOKEN_EXPIRE_MINUTES; omega
  refine ⟨?_, ?_, fun raw => rfl, ?_⟩
  · simp [verify_token, create_access_token, jwt_decode, hexp]
  · simp [verify_token, create_access_token, jwt_decode, hexp]
  · intro c key hc
    by_cases hk : key = secret
    · subst hk
      simp [verify_token, jwt_decode, hc]
    · simp [verify_token, jwt_decode, hk]

/-- C9: a user whose stored password matches but whose is_active flag is
false can log in and receives an access token, while the shared
current-user dependency rejects that very token with 401. -/
theorem login_ignores_is_active (vp : String → String → Bool)
    (secret : String) (users : List AuthUser) (username password : String)
    (now : Int) (u : AuthUser)
    (hfind : users.find?
        (fun x => x.username == username || x.email == username) = some u)
    (hpw : vp password u.password_hash = true)
    (hinactive : u.is_active = false)
    (hid : users.find? (fun x => x.id == u.id) = some u) :
    login vp secret users username password now
      = .ok { access_token := create_access_token secret u.id u.role now
              user_id := u.id
              user_is_active := false } ∧
    get_current_user secret users
        (create_access_token secret u.id u.role now) now = .error 401 := by
  constructor
  · simp [login, hfind, hpw, hinactive]
  · have hexp : ¬ (now + ACCESS_TOKEN_EXPIRE_MINUTES * 60 ≤ now) := by
      unfold ACCESS_TOKEN_EXPIRE_MINUTES; omega
    have hv : verify_token secret (create_access_token secret u.id u.role now) now
        = some { sub := u.id, role := u.role.value,
                 exp := now + ACCESS_TOKEN_EXPIRE_MINUTES * 60, iat := now } := by
      simp [verify_token, create_access_token, jwt_decode, hexp]
    simp [get_current_user, hv, hid, hinactive]

/-- Witness for C9: the inactive demo user logs in with the matching
password and the issued token is refused by the current-user dependency. -/
theorem login_ignores_is_active_witness :
    login demoVP "sec" demoUsers "alice" "hash1" 0
      = .ok { access_token := create_access_token "sec" demoInactiveUser.id
                demoInactiveUser.role 0
              user_id := demoInactiveUser.id
              user_is_active := false } ∧
    get_current_user "sec" demoUsers
        (create_access_token "sec" demoInactiveUser.id demoInactiveUser.role 0) 0
      = .error 401 :=
  login_ignores_is_active demoVP "sec" demoUsers "alice" "hash1" 0
    demoInactiveUser (by decide) (by decide) rfl (by decide)

/-- C7 counterexample: with only the config bucket registered (the setup
path tolerates a failed bucket creation and leaves the name unregistered),
kv_get on the sessions bucket raises ValueError instead of returning the
absent value the claim promises for a bucket that cannot be found. -/
theorem kv_get_raises_on_unregistered_bucket :
    kv_get [("config", kvEmptyStore)] "sessions" "k" = KVGetResult.raised ∧
    KVGetResult.raised ≠ KVGetResult.absent := by decide

/-- C7 amended: when the bucket is registered in the kv_stores table of the client
table, kv_get never raises and returns the absent value both for a missing
key and for any failing get (the bucket deleted on the server, any other
error); a bucket name not registered in kv_stores raises instead. -/
theorem kv_get_amended (kv_stores : List (String × KVStore))
    (bucket key : String) (store : KVStore) :
    (kv_stores.lookup bucket = some store →
       (kv_get kv_stores bucket key ≠ KVGetResult.raised) ∧
       (store.get key = KVFetch.keyNotFound →
          kv_get kv_stores bucket key = KVGetResult.absent) ∧
       (store.get key = KVFetch.bucketNotFound →
          kv_get kv_stores bucket key = KVGetResult.absent) ∧
       (store.get key = KVFetch.otherError →
          kv_get kv_stores bucket key = KVGetResult.absent)) ∧
    (kv_stores.lookup bucket = none →
       kv_get kv_stores bucket key = KVGetResult.raised) := by
  constructor
  · intro hl
    unfold kv_get
    rw [hl]
    rcases hf : store.get key <;> simp [hf]
  · intro hl
    unfold kv_get
    rw [hl]

/-- Bytewise XOR against the same expanded key is an involution: had
get_session_key returned stable key material, quantum_decrypt after
quantum_encrypt would return the plaintext.  Supporting lemma for the C2
analysis. -/
theorem symmetric_encrypt_roundtrip (key p : List Nat) (hk : key ≠ []) :
    symmetric_encrypt key (symmetric_encrypt key p) = p := by
  have hkpos : 0 < key.length := List.length_pos.mpr hk
  have hxor : ∀ (q ke : List Nat), q.length ≤ ke.length →
      List.zipWith (fun a b => a ^^^ b)
        (List.zipWith (fun a b => a ^^^ b) q ke) ke = q := by
    intro q
    induction q with
    | nil => intro ke _; simp
    | cons a q ih =>
        intro ke hlen
        cases ke with
        | nil => simp at hlen
        | cons b ke =>
            simp only [List.zipWith_cons_cons]
            have hb : (a ^^^ b) ^^^ b = a := by
              rw [Nat.xor_assoc, Nat.xor_self, Nat.xor_zero]
            rw [hb, ih ke (by simpa using hlen)]
  have hflat : (List.flatten (List.replicate (p.length / key.length + 1) key)).length
      = (p.length / key.length + 1) * key.length := by
    simp [List.length_flatten, List.map_replicate, List.sum_replicate, smul_eq_mul]
  have hge : p.length
      ≤ (List.flatten (List.replicate (p.length / key.length + 1) key)).length := by
    rw [hflat]
    have hmod := Nat.div_add_mod p.length key.length
    have hlt := Nat.mod_lt p.length hkpos
    calc p.length
        = key.length * (p.length / key.length) + p.length % key.length :=
          hmod.symm
      _ ≤ key.length * (p.length / key.length) + key.length := by omega
      _ = (p.length / key.length + 1) * key.length := by ring
  have hke : ((List.flatten (List.replicate (p.length / key.length + 1) key)).take
      p.length).length = p.length := by
    simp [List.length_take]
    omega
  have hcipher : (symmetric_encrypt key p).length = p.length := by
    simp only [symmetric_encrypt, List.length_zipWith, hke]
    omega
  have step1 : symmetric_encrypt key (symmetric_encrypt key p)
      = List.zipWith (fun a b => a ^^^ b) (symmetric_encrypt key p)
          ((List.flatten
              (List.replicate ((symmetric_encrypt key p).length / key.length + 1)
                key)).take (symmetric_encrypt key p).length) := rfl
  rw [step1, hcipher]
  have step2 : symmetric_encrypt key p
      = List.zipWith (fun a b => a ^^^ b) p
          ((List.flatten (List.replicate (p.length / key.length + 1) key)).take
            p.length) := rfl
  rw [step2]
  exact hxor p _ (by rw [hke])

/-- C2 (code bug): quantum_decrypt applied to the output of quantum_encrypt
for the same session does not return the plaintext, because each call of
get_session_key draws fresh random key material instead of the session key
material: under the two concrete 32-byte draws demoKeyA and demoKeyB,
encrypting the plaintext [1] and decrypting the result yields [254]. -/
theorem quantum_roundtrip_fails_on_fresh_material :
    quantum_encrypt demoSessions "s1" demoKeyA [1] = some demoPayload ∧
    quantum_decrypt demoSessions "s1" demoKeyB demoPayload = some [254] ∧
    ([254] : List Nat) ≠ [1] ∧
    get_session_key demoSessions "s1" demoKeyA
      ≠ get_session_key demoSessions "s1" demoKeyB := by
  refine ⟨rfl, ?_, by decide, by decide⟩
  have hq : (decide (mkRat 1 20 > mkRat 11 100)) = false := by decide
  simp [quantum_decrypt, get_session_key, demoSessions, demoPayload, hq]
  decide

/-- C3: under the draws the code makes (noise of length len(real)*ratio and
an insertion offset below len(noise) - len(real), the range of randbelow),
apply_blinding returns a buffer of length len(real)*(ratio+1) equal to
noise[:offset] + real + noise[offset:], with the real payload contiguous
and unmodified at the offset and the noise bytes preserved around it. -/
theorem apply_blinding_spec (real_data noise : List Nat)
    (noise_ratio insert_pos : Nat)
    (hn : noise.length = real_data.length * noise_ratio)
    (hp : insert_pos < noise.length - real_data.length) :
    ((apply_blinding real_data noise insert_pos).length
        = real_data.length * (noise_ratio + 1)) ∧
    (apply_blinding real_data noise insert_pos
        = noise.take insert_pos ++ real_data ++ noise.drop insert_pos) ∧
    ((apply_blinding real_data noise insert_pos).take insert_pos
        = noise.take insert_pos) ∧
    (((apply_blinding real_data noise insert_pos).drop insert_pos).take
        real_data.length = real_data) ∧
    ((apply_blinding real_data noise insert_pos).drop
        (insert_pos + real_data.length) = noise.drop insert_pos) := by
  have hple : insert_pos ≤ noise.length := by omega
  have htakelen : (noise.take insert_pos).length = insert_pos := by
    simp [List.length_take]
    omega
  refine ⟨?_, rfl, ?_, ?_, ?_⟩
  · simp only [apply_blinding, List.length_append, htakelen, List.length_drop]
    rw [hn]
    ring_nf
    omega
  · simp only [apply_blinding, List.append_assoc]
    rw [List.take_append_of_le_length (by rw [htakelen])]
    simp [List.take_take]
  · simp only [apply_blinding, List.append_assoc]
    rw [List.drop_append_of_le_length (by rw [htakelen])]
    have hnil : (List.take insert_pos noise).drop insert_pos = [] :=
      List.drop_eq_nil_of_le (by rw [htakelen])
    rw [hnil, List.nil_append]
    exact List.take_left real_data _
  · simp only [apply_blinding]
    apply List.drop_left'
    simp [htakelen]

/-- Witness for C3: payload [1, 2] with ratio 3, a concrete six-byte noise
draw and offset 2. -/
theorem apply_blinding_spec_witness :
    ((apply_blinding [1, 2] [9, 8, 7, 6, 5, 4] 2).length = 2 * (3 + 1)) ∧
    (apply_blinding [1, 2] [9, 8, 7, 6, 5, 4] 2
        = [9, 8, 7, 6, 5, 4].take 2 ++ [1, 2] ++ [9, 8, 7, 6, 5, 4].drop 2) ∧
    ((apply_blinding [1, 2] [9, 8, 7, 6, 5, 4] 2).take 2
        = [9, 8, 7, 6, 5, 4].take 2) ∧
    (((apply_blinding [1, 2] [9, 8, 7, 6, 5, 4] 2).drop 2).take 2 = [1, 2]) ∧
    ((apply_blinding [1, 2] [9, 8, 7, 6, 5, 4] 2).drop (2 + 2)
        = [9, 8, 7, 6, 5, 4].drop 2) := by
  have h := apply_blinding_spec [1, 2] [9, 8, 7, 6, 5, 4] 3 2 (by decide) (by decide)
  simpa using h

/-- C1: for every run of simulate_qkd_protocol (over all random draws), the
metadata reports security_check PASSED iff the measured QBER is strictly
below 11/100, flags eavesdropping iff the QBER is strictly above 11/100,
and at a QBER of exactly 11/100 reports FAILED with no eavesdropping
flag. -/
theorem qkd_security_verdict (session_id : String) (num_qubits : Nat)
    (alice_bases : List Char) (alice_bits : List Nat) (bob_bases : List Char)
    (sample : Nat → Nat → List Nat) (flip : Nat → Nat) :
    ((qkd_metadata session_id num_qubits alice_bases alice_bits bob_bases
          sample flip).security_check = "PASSED"
      ↔ (qkd_metadata session_id num_qubits alice_bases alice_bits bob_bases
          sample flip).qber < 11/100) ∧
    (((qkd_metadata session_id num_qubits alice_bases alice_bits bob_bases
          sample flip).eavesdropping_detected = true)
      ↔ 11/100 < (qkd_metadata session_id num_qubits alice_bases alice_bits
          bob_bases sample flip).qber) ∧
    ((qkd_metadata session_id num_qubits alice_bases alice_bits bob_bases
          sample flip).qber = 11/100 →
      (qkd_metadata session_id num_qubits alice_bases alice_bits bob_bases
          sample flip).security_check = "FAILED" ∧
      (qkd_metadata session_id num_qubits alice_bases alice_bits bob_bases
          sample flip).eavesdropping_detected = false) := by
  set m := qkd_metadata session_id num_qubits alice_bases alice_bits bob_bases
    sample flip with hm
  have hmk : (mkRat 11 100 : ℚ) = 11/100 := by norm_num [mkRat]
  have hsc : m.security_check
      = if m.qber < mkRat 11 100 then "PASSED" else "FAILED" := rfl
  have hed : m.eavesdropping_detected = decide (m.qber > mkRat 11 100) := rfl
  rw [hsc, hed, hmk]
  generalize m.qber = q
  refine ⟨?_, ?_, ?_⟩
  · split_ifs with h
    · simp [h]
    · exact iff_of_false (by decide) h
  · simp [gt_iff_lt, decide_eq_true_eq]
  · intro he
    subst he
    refine ⟨?_, ?_⟩
    · rw [if_neg (lt_irrefl ((11 : ℚ)/100))]
    · exact decide_eq_false (lt_irrefl ((11 : ℚ)/100))

/-- A successful ports loop is exactly the filterMap of the per-port body.
Supporting lemma for the nmap parser analysis. -/
theorem parse_ports_eq_filterMap (ps : List XMLElem) (pds : List PortData)
    (h : parse_ports ps = some pds) : pds = ps.filterMap parse_port := by
  induction ps generalizing pds with
  | nil =>
      simp only [parse_ports, Option.some.injEq] at h
      simp [← h]
  | cons p ps ih =>
      simp only [parse_ports] at h
      cases hp : parse_port p with
      | none => rw [hp] at h; exact absurd h (by simp)
      | some pd =>
          rw [hp] at h
          cases hps : parse_ports ps with
          | none => rw [hps] at h; exact absurd h (by simp)
          | some rest =>
              rw [hps] at h
              simp only [Option.some.injEq] at h
              rw [← h, List.filterMap_cons, hp, ← ih rest hps]

/-- What one pass of the host-loop body does: the address is overwritten
when the host carries one, the open ports of the host are appended, and the
other fields are untouched.  Supporting lemma for the nmap parser
analysis. -/
theorem parse_host_spec (hd hd' : HostData) (host : XMLElem)
    (h : parse_host hd host = some hd') :
    hd'.address = (address_of host).getD hd.address ∧
    hd'.ports = hd.ports ++ open_ports_of host ∧
    hd'.hostname = hd.hostname ∧ hd'.os = hd.os := by
  unfold parse_host at h
  cases hp : parse_ports (findall_path host "ports" "port") with
  | none =>
      rw [hp] at h
      cases hf : find_child host "address" <;> rw [hf] at h <;>
        exact absurd h (by simp)
  | some pds =>
      rw [hp] at h
      have hpds : pds = (findall_path host "ports" "port").filterMap parse_port :=
        parse_ports_eq_filterMap _ _ hp
      cases hf : find_child host "address" with
      | none =>
          rw [hf] at h
          simp only [Option.some.injEq] at h
          rw [← h]
          refine ⟨by simp [address_of, hf], ?_, rfl, rfl⟩
          simp [open_ports_of, hpds]
      | some a =>
          rw [hf] at h
          simp only [Option.some.injEq] at h
          rw [← h]
          refine ⟨by simp [address_of, hf], ?_, rfl, rfl⟩
          simp [open_ports_of, hpds]

/-- getLast?.getD after a cons: the head only matters when the tail is
empty.  Supporting lemma for the nmap parser analysis. -/
theorem getLast?_getD_cons {α : Type} (a d : α) (l : List α) :
    ((a :: l).getLast?).getD d = (l.getLast?).getD a := by
  cases l with
  | nil => rfl
  | cons b l =>
      have hsome : ((b :: l).getLast?).isSome := by
        rw [List.getLast?_isSome]
        simp
      rcases Option.isSome_iff_exists.mp hsome with ⟨x, hx⟩
      rw [List.getLast?_cons_cons, hx]
      rfl

/-- The host loop computes, from any starting host_data: ports extended by
the open ports of every processed host, and the address of the last host
carrying one (or the starting address).  Supporting lemma for the nmap
parser analysis. -/
theorem parse_hosts_spec (hs : List XMLElem) : ∀ (hd0 hd : HostData),
    parse_hosts hd0 hs = some hd →
    hd.ports = hd0.ports ++ hs.flatMap open_ports_of ∧
    hd.address = ((hs.filterMap address_of).getLast?).getD hd0.address ∧
    hd.hostname = hd0.hostname ∧ hd.os = hd0.os := by
  induction hs with
  | nil =>
      intro hd0 hd h
      simp only [parse_hosts, Option.some.injEq] at h
      rw [← h]
      simp
  | cons x hs ih =>
      intro hd0 hd h
      simp only [parse_hosts] at h
      cases hx : parse_host hd0 x with
      | none => rw [hx] at h; exact absurd h (by simp)
      | some hd1 =>
          rw [hx] at h
          obtain ⟨hports, haddr, hname, hos⟩ := ih hd1 hd h
          obtain ⟨ha1, hp1, hn1, ho1⟩ := parse_host_spec hd0 hd1 x hx
          refine ⟨?_, ?_, ?_, ?_⟩
          · rw [hports, hp1, List.flatMap_cons, List.append_assoc]
          · rw [haddr, List.filterMap_cons]
            cases hao : address_of x with
            | none =>
                rw [hao] at ha1
                simp only [Option.getD_none] at ha1
                rw [ha1]
            | some a =>
                rw [hao] at ha1
                simp only [Option.getD_some] at ha1
                rw [getLast?_getD_cons, ha1]
          · rw [hname, hn1]
          · rw [hos, ho1]

/-- C8 counterexample: on a well-formed two-host document whose first host
is 10.0.0.1, parse_nmap_xml returns the address of the second host,
10.0.0.2, not the address of the first host, and accumulates the open ports
of both hosts. -/
theorem parse_nmap_xml_last_host_counterexample :
    address_of nmapHostA = some "10.0.0.1" ∧
    parse_nmap_xml nmapTwoHosts
      = some { address := "10.0.0.2", hostname := "", os := "",
               ports := [{ port := 22, protocol := "tcp", state := "open",
                           service := "ssh", version := "" },
                         { port := 80, protocol := "tcp", state := "open",
                           service := "http", version := "" }] } ∧
    ("10.0.0.2" : String) ≠ "10.0.0.1" := by decide

/-- C8 amended: on any document it parses, parse_nmap_xml returns the
address of the last host element carrying an address (empty when none
does), together with exactly the ports, accumulated across all hosts in
document order, whose state attribute is open; in particular every
returned port has state open, and on a single-host document the address is
the address of that first host. -/
theorem parse_nmap_xml_amended (root : XMLElem) (hd : HostData)
    (h : parse_nmap_xml root = some hd) :
    hd.ports = (findall root "host").flatMap open_ports_of ∧
    hd.address = (((findall root "host").filterMap address_of).getLast?).getD "" ∧
    hd.ports.all (fun p => p.state == "open") = true := by
  obtain ⟨hports, haddr, _, _⟩ :=
    parse_hosts_spec (findall root "host") _ hd h
  have hports0 : hd.ports = (findall root "host").flatMap open_ports_of := by
    simpa using hports
  refine ⟨hports0, by simpa using haddr, ?_⟩
  rw [hports0, List.all_eq_true]
  intro p hp
  rw [List.mem_flatMap] at hp
  obtain ⟨host, _, hpin⟩ := hp
  exact (List.mem_filter.mp hpin).2

/-- Witness for C8: the single-host document with one open and one closed
port parses to exactly the one open port with its fields, and to the first
(and only) host address. -/
theorem parse_nmap_xml_amended_witness :
    nmapOneHostParsed.ports = (findall nmapOneHost "host").flatMap open_ports_of ∧
    nmapOneHostParsed.address
      = (((findall nmapOneHost "host").filterMap address_of).getLast?).getD "" ∧
    nmapOneHostParsed.ports.all (fun p => p.state == "open") = true :=
  parse_nmap_xml_amended nmapOneHost nmapOneHostParsed (by decide)

end ZeroAzimuth
